import Mathlib

/-!
Verification of the MCP admin client core
(`agent_cloudflare/jewelry-rag-mcp-server/admin_streamlit/app.py`).

The embedding models the JSON values the client manipulates, the
request-envelope construction, the HTTP response handling of
`call_mcp_tool`, the `tools/list` button handler, and the
default-argument synthesis loop, following the Python source line by
line.  Python exceptions are modelled with `Except String`; the
`try/except` blocks of the source become `match` on the `Except` value.
-/

namespace MCPAdmin

/-- A JSON value, as produced by `json.loads` / `r.json()`.  Numbers are
modelled as integers (the claims under study never depend on fractional
parts).  Objects keep their key order, matching Python dict insertion
order. -/
inductive Json where
  | null : Json
  | bool : Bool → Json
  | num : Int → Json
  | str : String → Json
  | arr : List Json → Json
  | obj : List (String × Json) → Json

/-- First-match lookup in an association list, matching Python dict key
lookup (dict literals in the source never repeat a key). -/
def jlookup (kvs : List (String × Json)) (k : String) : Option Json :=
  match kvs with
  | [] => none
  | (k2, v) :: rest => if k2 = k then some v else jlookup rest k

/-- `isinstance(v, dict)` on a JSON value. -/
def Json.isObj : Json → Bool
  | .obj _ => true
  | _ => false

/-- Field access on a JSON value: `some` if the value is an object with
the key, `none` otherwise. -/
def getField (v : Json) (k : String) : Option Json :=
  match v with
  | .obj kvs => jlookup kvs k
  | _ => none

/-- Python truthiness of a JSON value (`bool(v)`): `None`, `False`, `0`,
`""`, `[]` and `{}` are falsy, everything else truthy. -/
def truthy : Json → Bool
  | .null => false
  | .bool b => b
  | .num n => n != 0
  | .str s => !s.isEmpty
  | .arr xs => !xs.isEmpty
  | .obj kvs => !kvs.isEmpty

/-- Python `v.get(k, d)` where `v` may be any value: raises
`AttributeError` when `v` is not a dict, otherwise returns the value at
`k` or the default `d`. -/
def pyGetD (v : Json) (k : String) (d : Json) : Except String Json :=
  match v with
  | .obj kvs => .ok ((jlookup kvs k).getD d)
  | _ => .error "AttributeError"

/-- The spec's three-way outcome bucket for a dispatched call. -/
inductive Classification where
  | Success : Classification
  | ProtocolError : Classification
  | TransportFailure : Classification

/-- A `requests.Response` restricted to the fields the source reads.
`jsonBody` is the observable behaviour of `r.json()`: `some` the parsed
value when the body parses as JSON, `none` when `r.json()` raises. -/
structure HttpResponse where
  status_code : Nat
  text : String
  jsonBody : Option Json

/-- `r.ok` of the `requests` library, which is defined through
`raise_for_status`: false exactly when the status code is a 4xx or 5xx
code, true for everything else (including statuses of 600 and above). -/
def r_ok (status_code : Nat) : Bool :=
  !(decide (400 ≤ status_code) && decide (status_code < 600))

/-- The parsed body computed by `call_mcp_tool` (app.py lines 37-40): the
JSON value when the body parses, otherwise the fallback object with keys
`raw_text` (the raw body) and `status_code`. -/
def respOf (r : HttpResponse) : Json :=
  match r.jsonBody with
  | some j => j
  | none => .obj [("raw_text", .str r.text), ("status_code", .num r.status_code)]

/-- The body part of the success predicate of app.py line 51:
`isinstance(resp, dict) and resp.get("result")` under Python
truthiness. -/
def bodySuccess (resp : Json) : Bool :=
  resp.isObj && truthy ((getField resp "result").getD .null)

/-- The response classifier implicit in app.py lines 51-56 for a call
whose transport returned a response: `r.ok and isinstance(resp, dict)
and resp.get("result")` selects the success branch, anything else the
error branch. -/
def classify (status_code : Nat) (resp : Json) : Classification :=
  if r_ok status_code && bodySuccess resp then .Success else .ProtocolError

/-- One record of `st.session_state.history` (app.py lines 42-48). -/
structure HistoryEntry where
  time : String
  tool : String
  request : Json
  response : Json
  status_code : Nat

/-- The mutable session state the handlers touch:
`st.session_state.history` (newest first) and `st.session_state.tools`
(initialised to the empty list, replaced by the `tools/list` handler). -/
structure SessionState where
  history : List HistoryEntry
  tools : Json

/-- The JSON-RPC envelope built by `call_mcp_tool` (app.py lines 29-34);
`ts` stands for the value of `datetime.now().timestamp()` used as id. -/
def callPayload (tool_name : String) (args : Json) (ts : Int) : Json :=
  .obj [("jsonrpc", .str "2.0"), ("id", .num ts), ("method", .str "tools/call"),
        ("params", .obj [("name", .str tool_name), ("arguments", args)])]

/-- The JSON-RPC envelope sent by the `tools/list` button (app.py line
145): constant, with id literally 1 and no params key. -/
def listPayload : Json :=
  .obj [("jsonrpc", .str "2.0"), ("id", .num 1), ("method", .str "tools/list")]

/-- What `call_mcp_tool` renders: `st.success` plus `st.json` (line
52-53), `st.error` plus `st.write` (lines 55-56), or the `st.error` of
the outer `except` (line 58). -/
inductive Display where
  | successMsg (tool : String) (resp : Json)
  | errorMsg (tool : String) (status_code : Nat) (resp : Json)
  | exceptionMsg (tool : String) (msg : String)

/-- The body of the outer `try` of `call_mcp_tool` (app.py lines 35-56):
propagates the exception when `requests.post` raises (`tr` is the
transport result for this one POST), otherwise records the history entry
and picks the display branch.  The inner `try/except` around `r.json()`
is `respOf`. -/
def call_body (tool_name : String) (args : Json) (ts : Int) (utc : String)
    (tr : Except String HttpResponse) (st : SessionState) :
    Except String (SessionState × Display) :=
  match tr with
  | .error e => .error e
  | .ok r =>
    let resp := respOf r
    let entry : HistoryEntry :=
      ⟨utc, tool_name, callPayload tool_name args ts, resp, r.status_code⟩
    let st2 : SessionState := ⟨entry :: st.history, st.tools⟩
    if r_ok r.status_code && bodySuccess resp then
      .ok (st2, .successMsg tool_name resp)
    else
      .ok (st2, .errorMsg tool_name r.status_code resp)

/-- `call_mcp_tool` (app.py lines 28-58): the `try` body with the outer
`except` that turns any exception into an inline error report; `utc` is
the `datetime.now(timezone.utc).isoformat()` string of this call. -/
def call_mcp_tool (tool_name : String) (args : Json) (ts : Int) (utc : String)
    (tr : Except String HttpResponse) (st : SessionState) : SessionState × Display :=
  match call_body tool_name args ts utc tr st with
  | .ok res => res
  | .error e => (st, .exceptionMsg tool_name e)

/-- The `try` body of the `tools/list` button handler (app.py lines
146-151), up to the catalog assignment: `r.raise_for_status()` raises
`HTTPError` exactly on 4xx/5xx, `r.json()` raises when the body does not
parse, then `resp.get("result", ...).get("tools", ...)` with dict
defaults, each `get` raising on a non-dict receiver. -/
def list_body (tr : Except String HttpResponse) : Except String Json :=
  match tr with
  | .error e => .error e
  | .ok r =>
    if 400 ≤ r.status_code ∧ r.status_code < 600 then .error "HTTPError"
    else
      match r.jsonBody with
      | none => .error "JSONDecodeError"
      | some resp =>
        match pyGetD resp "result" (.obj []) with
        | .error e => .error e
        | .ok res => pyGetD res "tools" (.arr [])

/-- The `tools/list` button handler (app.py lines 144-158): on any
exception the `except` branch only renders an error, leaving the session
state untouched; otherwise `st.session_state.tools` is replaced by the
extracted value.  The handler never touches the history. -/
def list_handler (tr : Except String HttpResponse) (st : SessionState) : SessionState :=
  match list_body tr with
  | .ok tools => ⟨st.history, tools⟩
  | .error _ => st

/-- The placeholder chosen by the `elif` chain of app.py lines 175-184,
as a function of the value `v.get("type")` (Python `None` becomes
`Json.null`). -/
def typePlaceholder : Json → Json
  | .str "string" => .str ""
  | .str "number" => .num 0
  | .str "boolean" => .bool false
  | .str "array" => .arr []
  | _ => .null

/-- One iteration of the synthesis loop: `v.get("type")` (raising when
the property spec `v` is not a dict) followed by the `elif` chain. -/
def placeholder (v : Json) : Except String Json :=
  match pyGetD v "type" .null with
  | .error e => .error e
  | .ok t => .ok (typePlaceholder t)

/-- The loop `for k, v in props.items()` of app.py lines 174-184,
building `default_args` in the dict's iteration (insertion) order. -/
def default_args : List (String × Json) → Except String (List (String × Json))
  | [] => .ok []
  | (k, v) :: rest =>
    match placeholder v with
    | .error e => .error e
    | .ok pv =>
      match default_args rest with
      | .error e => .error e
      | .ok tail => .ok ((k, pv) :: tail)

/-- The whole synthesis step of app.py lines 171-184 from the tool's
`inputSchema` value: `props = schema.get("properties", ...)` with a dict
default, then the loop — `props.items()` raises when `props` is not a
dict. -/
def synthesize (schema : Json) : Except String (List (String × Json)) :=
  match pyGetD schema "properties" (.obj []) with
  | .error e => .error e
  | .ok props =>
    match props with
    | .obj kvs => default_args kvs
    | _ => .error "AttributeError"

/-- Truthiness of Python `args_text.strip()`: the stripped string is
non-empty exactly when the text has any non-whitespace character. -/
def stripTruthy (s : String) : Bool := s.toList.any (fun c => !c.isWhitespace)

/-- The ad-hoc `tools/call` dispatch button handler (app.py lines
188-193): inside `try`, `parsed_args = json.loads(args_text) if
args_text.strip() else ` the empty dict, then `call_mcp_tool`; a parse
failure is caught and reported inline.  `parse` stands for `json.loads`;
the returned flag records whether `call_mcp_tool` ran (and hence whether
the transport was invoked). -/
def dispatch_handler (parse : String → Except String Json) (args_text : String)
    (selected : String) (ts : Int) (utc : String) (tr : Except String HttpResponse)
    (st : SessionState) : SessionState × Bool :=
  let parsed := if stripTruthy args_text then parse args_text else Except.ok (Json.obj [])
  match parsed with
  | .ok args => ((call_mcp_tool selected args ts utc tr st).1, true)
  | .error _ => (st, false)

/-- The two kinds of dispatch the UI can trigger. -/
inductive Action where
  | callTool (name : String) (args : Json)
  | listTools

/-- The JSON-RPC request sent for a dispatch performed at timestamp
`ts`: `call_mcp_tool` builds `callPayload` with the current timestamp as
id (app.py line 31); the `tools/list` button always sends the constant
`listPayload` (app.py line 145). -/
def requestOf (a : Action) (ts : Int) : Json :=
  match a with
  | .callTool n args => callPayload n args ts
  | .listTools => listPayload

/-- Helper: when the `try` body of the `tools/list` handler raises, the
session state is returned unchanged. -/
theorem list_handler_eq_of_err (tr : Except String HttpResponse) (st : SessionState)
    (e2 : String) (h : list_body tr = Except.error e2) : list_handler tr st = st := by
  unfold list_handler
  rw [h]

/-- C1 counterexample: a `tools/call` whose transport raises appends no
history entry, and a completed `tools/list` dispatch appends no history
entry either — so a dispatched call does not always produce exactly one
HistoryEntry. -/
theorem dispatch_without_history_entry :
    (call_mcp_tool "echo" (Json.obj []) 0 "t0" (Except.error "ConnectionError")
      ⟨[], Json.arr []⟩).1.history = []
    ∧ (list_handler (Except.ok ⟨200, "x",
        some (Json.obj [("result", Json.obj [("tools", Json.arr [])])])⟩)
      ⟨[], Json.arr []⟩).history = [] :=
  ⟨rfl, rfl⟩

/-- C1 amended: a `tools/call` dispatch whose transport returns a
response (any status code, parseable body or not) appends exactly one
history entry; a `tools/call` whose transport raises appends none, and a
`tools/list` dispatch never touches the history. -/
theorem history_entries_per_dispatch (tool : String) (args : Json) (ts : Int)
    (utc : String) (r : HttpResponse) (e : String)
    (tr : Except String HttpResponse) (st : SessionState) :
    (call_mcp_tool tool args ts utc (Except.ok r) st).1.history.length
        = st.history.length + 1
    ∧ (call_mcp_tool tool args ts utc (Except.error e) st).1.history = st.history
    ∧ (list_handler tr st).history = st.history := by
  refine ⟨?_, rfl, ?_⟩
  · cases hc : r_ok r.status_code && bodySuccess (respOf r) <;>
      simp [call_mcp_tool, call_body, hc]
  · unfold list_handler
    split <;> rfl

/-- C2 counterexample: a 302 response whose body is an object with a
truthy `result` is classified Success, because `r.ok` of the `requests`
library only fails on 4xx/5xx statuses, not on everything at or above
300. -/
theorem classify_302_truthy_result_success :
    classify 302 (Json.obj [("result", Json.bool true)]) = Classification.Success := rfl

/-- C2 amended: every response with an HTTP status in the 4xx/5xx range
is classified ProtocolError regardless of body shape (the region the
error branch is forced on is 400-599, the range `r.ok` rejects — not
everything at or above 300). -/
theorem classify_ge_400_protocol_error (s : Nat) (resp : Json)
    (h : 400 ≤ s) (h2 : s < 600) :
    classify s resp = Classification.ProtocolError := by
  have hn : r_ok s = false := by
    simp only [r_ok, Bool.not_eq_false', Bool.and_eq_true, decide_eq_true_eq]
    exact ⟨h, h2⟩
  simp [classify, hn]

/-- Witness for C2 amended at status 500. -/
theorem classify_ge_400_protocol_error_witness :
    400 ≤ 500 ∧ 500 < 600
    ∧ classify 500 (Json.obj [("result", Json.bool true)]) = Classification.ProtocolError :=
  ⟨by decide, by decide,
    classify_ge_400_protocol_error 500 (Json.obj [("result", Json.bool true)])
      (by decide) (by decide)⟩

/-- C3 counterexample: a 200 `tools/list` response that parses to an
object without a `result` key classifies as ProtocolError, yet the
handler replaces a non-empty cached catalog with the empty list. -/
theorem failed_list_refresh_clears_catalog :
    classify 200 (Json.obj [("jsonrpc", Json.str "2.0")]) = Classification.ProtocolError
    ∧ (list_handler (Except.ok ⟨200, "x", some (Json.obj [("jsonrpc", Json.str "2.0")])⟩)
        ⟨[], Json.arr [Json.obj [("name", Json.str "echo")]]⟩).tools = Json.arr []
    ∧ Json.arr [Json.obj [("name", Json.str "echo")]] ≠ Json.arr [] := by
  refine ⟨rfl, rfl, ?_⟩
  simp

/-- C3 amended: a `tools/list` refresh leaves the cached catalog
unchanged when the transport raises, when the status is 4xx/5xx, when
the body does not parse as JSON, or when the parsed body is not an
object; but a 2xx parseable object body lacking a usable `result`
replaces the catalog with the empty list (the counterexample). -/
theorem list_refresh_raise_preserves_catalog (e : String) (st : SessionState)
    (r1 r2 r3 : HttpResponse)
    (h1 : 400 ≤ r1.status_code) (h1b : r1.status_code < 600)
    (h2 : r2.jsonBody = none)
    (h3 : ∀ kvs, r3.jsonBody ≠ some (Json.obj kvs)) :
    list_handler (Except.error e) st = st
    ∧ list_handler (Except.ok r1) st = st
    ∧ list_handler (Except.ok r2) st = st
    ∧ list_handler (Except.ok r3) st = st := by
  have k1 : list_body (Except.ok r1) = Except.error "HTTPError" := by
    simp only [list_body]
    rw [if_pos ⟨h1, h1b⟩]
  have k2 : ∃ e2, list_body (Except.ok r2) = Except.error e2 := by
    simp only [list_body]
    split
    · exact ⟨"HTTPError", rfl⟩
    · rw [h2]
      exact ⟨"JSONDecodeError", rfl⟩
  have k3 : ∃ e2, list_body (Except.ok r3) = Except.error e2 := by
    simp only [list_body]
    split
    · exact ⟨"HTTPError", rfl⟩
    · cases hj : r3.jsonBody with
      | none => exact ⟨"JSONDecodeError", rfl⟩
      | some j =>
        cases j with
        | null => exact ⟨"AttributeError", rfl⟩
        | bool b => exact ⟨"AttributeError", rfl⟩
        | num n => exact ⟨"AttributeError", rfl⟩
        | str s2 => exact ⟨"AttributeError", rfl⟩
        | arr xs => exact ⟨"AttributeError", rfl⟩
        | obj kvs => exact absurd hj (h3 kvs)
  obtain ⟨e2, hk2⟩ := k2
  obtain ⟨e3, hk3⟩ := k3
  exact ⟨rfl, list_handler_eq_of_err _ st _ k1, list_handler_eq_of_err _ st _ hk2,
    list_handler_eq_of_err _ st _ hk3⟩

/-- Witness for C3 amended: four failing refreshes against the same
session state, none of which changes it. -/
theorem list_refresh_raise_preserves_catalog_witness :
    list_handler (Except.error "timeout") ⟨[], Json.null⟩ = ⟨[], Json.null⟩
    ∧ list_handler (Except.ok ⟨404, "err", some Json.null⟩) ⟨[], Json.null⟩ = ⟨[], Json.null⟩
    ∧ list_handler (Except.ok ⟨200, "nojson", none⟩) ⟨[], Json.null⟩ = ⟨[], Json.null⟩
    ∧ list_handler (Except.ok ⟨200, "scalar", some (Json.str "hi")⟩) ⟨[], Json.null⟩
        = ⟨[], Json.null⟩ :=
  list_refresh_raise_preserves_catalog "timeout" ⟨[], Json.null⟩
    ⟨404, "err", some Json.null⟩ ⟨200, "nojson", none⟩ ⟨200, "scalar", some (Json.str "hi")⟩
    (by decide) (by decide) rfl (by intro kvs h; simp at h)

/-- C4 counterexample: a schema whose property spec is not an object is
rejected — `v.get("type")` raises AttributeError — instead of degrading
to a null placeholder. -/
theorem synthesize_rejects_nonobject_prop :
    synthesize (Json.obj [("properties", Json.obj [("a", Json.num 5)])])
      = Except.error "AttributeError" := rfl

/-- C4 amended: for every schema whose declared property specs are all
JSON objects, synthesis maps each property, in declaration order, to the
placeholder selected by its declared type (string, number, boolean,
array, anything else or absent giving null); a schema with a non-object
property spec raises instead. -/
theorem synthesize_object_props (props : List (String × Json))
    (h : ∀ kv ∈ props, (kv.2).isObj = true) :
    synthesize (Json.obj [("properties", Json.obj props)])
      = Except.ok (props.map fun kv =>
          (kv.1, typePlaceholder ((getField kv.2 "type").getD Json.null))) := by
  have key : ∀ ps : List (String × Json), (∀ kv ∈ ps, (kv.2).isObj = true) →
      default_args ps = Except.ok (ps.map fun kv =>
        (kv.1, typePlaceholder ((getField kv.2 "type").getD Json.null))) := by
    intro ps
    induction ps with
    | nil => intro _; rfl
    | cons kv rest ih =>
      intro hall
      obtain ⟨k, v⟩ := kv
      have hv : v.isObj = true := hall (k, v) (List.mem_cons_self _ _)
      have hrest := ih (fun kv2 hm => hall kv2 (List.mem_cons_of_mem _ hm))
      cases v with
      | obj kvs => simp [default_args, placeholder, pyGetD, hrest, getField]
      | null => simp [Json.isObj] at hv
      | bool b => simp [Json.isObj] at hv
      | num n => simp [Json.isObj] at hv
      | str s => simp [Json.isObj] at hv
      | arr xs => simp [Json.isObj] at hv
  exact key props h

/-- Witness for C4 amended: the spec's own example schema, evaluated. -/
theorem synthesize_object_props_witness :
    synthesize (Json.obj [("properties", Json.obj
      [("a", Json.obj [("type", Json.str "string")]),
       ("b", Json.obj [("type", Json.str "number")]),
       ("c", Json.obj [("type", Json.str "boolean")]),
       ("d", Json.obj [("type", Json.str "array")]),
       ("e", Json.obj [])])])
    = Except.ok [("a", Json.str ""), ("b", Json.num 0), ("c", Json.bool false),
       ("d", Json.arr []), ("e", Json.null)] :=
  synthesize_object_props
    [("a", Json.obj [("type", Json.str "string")]),
     ("b", Json.obj [("type", Json.str "number")]),
     ("c", Json.obj [("type", Json.str "boolean")]),
     ("d", Json.obj [("type", Json.str "array")]),
     ("e", Json.obj [])]
    (by decide)

/-- C5: a 2xx response whose parsed body is not an object with a truthy
`result` (bare array or scalar, missing `result`, `result` false or 0)
is classified ProtocolError. -/
theorem classify_2xx_without_truthy_result (s : Nat) (resp : Json)
    (h1 : 200 ≤ s) (h2 : s < 300) (h3 : bodySuccess resp = false) :
    classify s resp = Classification.ProtocolError := by
  simp [classify, h3]

/-- Witness for C5 at status 200 with a bare-array body. -/
theorem classify_2xx_without_truthy_result_witness :
    200 ≤ 200 ∧ 200 < 300 ∧ bodySuccess (Json.arr []) = false
    ∧ classify 200 (Json.arr []) = Classification.ProtocolError :=
  ⟨by decide, by decide, rfl,
    classify_2xx_without_truthy_result 200 (Json.arr []) (by decide) (by decide) rfl⟩

/-- C6: when the operator's argument text does not parse as JSON, the
dispatch handler reports inline and returns: the transport is never
invoked (flag false) and the session state — history and catalog — is
returned untouched. -/
theorem malformed_args_no_dispatch (parse : String → Except String Json)
    (args_text selected : String) (ts : Int) (utc : String)
    (tr : Except String HttpResponse) (st : SessionState) (e : String)
    (h1 : stripTruthy args_text = true) (h2 : parse args_text = Except.error e) :
    dispatch_handler parse args_text selected ts utc tr st = (st, false) := by
  simp [dispatch_handler, h1, h2]

/-- Witness for C6: a parse that fails on non-blank text dispatches
nothing. -/
theorem malformed_args_no_dispatch_witness :
    dispatch_handler (fun _ => Except.error "bad json") "oops" "echo" 0 "t0"
      (Except.ok ⟨200, "", none⟩) ⟨[], Json.arr []⟩ = (⟨[], Json.arr []⟩, false) :=
  malformed_args_no_dispatch (fun _ => Except.error "bad json") "oops" "echo" 0 "t0"
    (Except.ok ⟨200, "", none⟩) ⟨[], Json.arr []⟩ "bad json" (by decide) rfl

/-- C7: when the body does not parse as JSON, no exception escapes
`call_mcp_tool`: the recorded and displayed body is the fallback object
carrying the raw text and the status code verbatim, and the outcome is
the error branch; the classifier yields ProtocolError on the fallback
body. -/
theorem unparseable_body_fallback (tool : String) (args : Json) (ts : Int)
    (utc : String) (r : HttpResponse) (st : SessionState) (h : r.jsonBody = none) :
    call_mcp_tool tool args ts utc (Except.ok r) st
      = (⟨⟨utc, tool, callPayload tool args ts,
           Json.obj [("raw_text", Json.str r.text), ("status_code", Json.num r.status_code)],
           r.status_code⟩ :: st.history, st.tools⟩,
         Display.errorMsg tool r.status_code
           (Json.obj [("raw_text", Json.str r.text), ("status_code", Json.num r.status_code)]))
    ∧ classify r.status_code (respOf r) = Classification.ProtocolError := by
  obtain ⟨sc, tx, jb⟩ := r
  replace h : jb = none := h
  subst h
  have hb : bodySuccess (Json.obj [("raw_text", Json.str tx),
      ("status_code", Json.num sc)]) = false := rfl
  constructor
  · simp [call_mcp_tool, call_body, respOf, hb]
  · simp [classify, respOf, hb]

/-- Witness for C7: a 200 response with a non-JSON body. -/
theorem unparseable_body_fallback_witness :
    call_mcp_tool "echo" Json.null 0 "t0" (Except.ok ⟨200, "oops", none⟩) ⟨[], Json.null⟩
      = (⟨[⟨"t0", "echo", callPayload "echo" Json.null 0,
           Json.obj [("raw_text", Json.str "oops"), ("status_code", Json.num 200)], 200⟩],
          Json.null⟩,
         Display.errorMsg "echo" 200
           (Json.obj [("raw_text", Json.str "oops"), ("status_code", Json.num 200)]))
    ∧ classify 200 (respOf ⟨200, "oops", none⟩) = Classification.ProtocolError :=
  unparseable_body_fallback "echo" Json.null 0 "t0" ⟨200, "oops", none⟩ ⟨[], Json.null⟩ rfl

/-- C8: every `tools/call` envelope carries jsonrpc "2.0", the method
`tools/call`, and params nesting the tool name and the operator's
arguments unchanged; the `tools/list` envelope carries jsonrpc "2.0",
the method `tools/list`, and no params field. -/
theorem envelope_shape (tool : String) (args : Json) (ts : Int) :
    getField (callPayload tool args ts) "jsonrpc" = some (Json.str "2.0")
    ∧ getField (callPayload tool args ts) "method" = some (Json.str "tools/call")
    ∧ getField (callPayload tool args ts) "params"
        = some (Json.obj [("name", Json.str tool), ("arguments", args)])
    ∧ getField listPayload "jsonrpc" = some (Json.str "2.0")
    ∧ getField listPayload "method" = some (Json.str "tools/list")
    ∧ getField listPayload "params" = none :=
  ⟨rfl, rfl, rfl, rfl, rfl, rfl⟩

/-- C9 counterexample: two `tools/list` dispatches, however far apart,
both carry the constant id 1 — ids are not fresh per call. -/
theorem list_dispatch_constant_id :
    getField (requestOf Action.listTools 0) "id" = getField (requestOf Action.listTools 1) "id"
    ∧ getField (requestOf Action.listTools 0) "id" = some (Json.num 1) :=
  ⟨rfl, rfl⟩

/-- C9 amended: two `tools/call` dispatches performed at distinct
timestamps carry distinct ids (the id is the dispatch timestamp), while
every `tools/list` dispatch carries the constant id 1. -/
theorem dispatch_id_freshness (n1 n2 : String) (a1 a2 : Json) (t1 t2 ts : Int)
    (h : t1 ≠ t2) :
    getField (requestOf (Action.callTool n1 a1) t1) "id"
      ≠ getField (requestOf (Action.callTool n2 a2) t2) "id"
    ∧ getField (requestOf Action.listTools ts) "id" = some (Json.num 1) := by
  refine ⟨?_, rfl⟩
  have g1 : getField (requestOf (Action.callTool n1 a1) t1) "id" = some (Json.num t1) := rfl
  have g2 : getField (requestOf (Action.callTool n2 a2) t2) "id" = some (Json.num t2) := rfl
  rw [g1, g2]
  intro hc
  exact h (by simpa using hc)

/-- Witness for C9 amended at timestamps 0 and 1. -/
theorem dispatch_id_freshness_witness :
    getField (requestOf (Action.callTool "a" Json.null) 0) "id"
      ≠ getField (requestOf (Action.callTool "b" Json.null) 1) "id"
    ∧ getField (requestOf Action.listTools 5) "id" = some (Json.num 1) :=
  dispatch_id_freshness "a" "b" Json.null Json.null 0 1 5 (by decide)

/-- C10: `call_mcp_tool` is total with respect to transport and parsing
errors: the raw `try` body propagates a transport exception, the
function itself catches it and turns it into an inline error report with
the state unchanged, and for any returned response — parseable body or
not — the body never raises. -/
theorem call_mcp_tool_total (tool : String) (args : Json) (ts : Int) (utc : String)
    (e : String) (r : HttpResponse) (st : SessionState) :
    call_body tool args ts utc (Except.error e) st = Except.error e
    ∧ call_mcp_tool tool args ts utc (Except.error e) st = (st, Display.exceptionMsg tool e)
    ∧ ∃ res, call_body tool args ts utc (Except.ok r) st = Except.ok res := by
  refine ⟨rfl, rfl, ?_⟩
  simp only [call_body]
  split
  · exact ⟨_, rfl⟩
  · exact ⟨_, rfl⟩

end MCPAdmin
